import Mathlib

/-!
# Verification of the ThriveAds insights engine (Meta-ads reporting platform)

Shallow embedding of the TypeScript source that fetches Meta Marketing API
insights and normalizes them into canonical metrics, together with proofs
about the behaviour of that code.

Embedded source files:
* `src/app/api/meta-insights/route.ts` (class `MetaAPIService`, embedded here
  as namespace `MetaAPIRoute` to avoid a name clash with the library class of
  the same name) — `fetchInsights`, `extractPurchaseConversions`,
  `convertToMetrics`;
* `src/services/meta-api.ts` (exported class `MetaAPIService`, namespace
  `MetaAPIService`) — `fetchInsights`, `extractPurchaseConversions`,
  `convertToMetrics`;
* `src/app/api/meta-insights/ads/route.ts` (class `MetaAdsAPIService`) —
  `fetchAdInsights`, `extractPurchaseConversions`, `convertToAdMetrics`;
* `src/app/api/meta-insights/comparison/route.ts` (class
  `MetaComparisonAPIService`) — `fetchInsights`, `extractPurchaseConversions`,
  `convertToMetrics`;
* `src/lib/utils.ts` — `getLastMonday`, `getLastSunday`.

Modelling conventions:
* JavaScript numbers are modelled by `JsNum`: either NaN or an exact rational.
  (The code under verification only compares against zero, divides under a
  strict-positivity guard, and passes parsed values through, so double
  rounding is irrelevant to every property proved here.)
* A possibly-absent (`undefined`) string field is `Option String`;
  JavaScript string truthiness (`undefined` and `""` are falsy, every other
  string is truthy) is the function `truthy`.
* `parseFloat` / `parseInt` model the JavaScript builtins on decimal (and for
  `parseInt`, hexadecimal `0x`) inputs: leading whitespace is skipped, the
  longest valid numeric prefix is converted, and an empty numeric prefix
  yields NaN.  (The JS `Infinity` literal is not modelled; no field of a Meta
  insights record ever carries it.)
* The HTTP layer (`fetch`) is an oracle `List (String × String) → HttpResponse`
  mapping the query-parameter list built by the code to a response, so that
  theorems quantify over every possible behaviour of the external API.
* JS `Date` values are modelled as `Int` day numbers (days since 1970-01-01,
  which was a Thursday, so `getDay n = (n + 4) % 7` with 0 = Sunday, matching
  `Date.prototype.getDay`).  `d.setDate(d.getDate() + k)` normalizes exactly
  to shifting the date by `k` days, which is how the two date helpers in
  `src/lib/utils.ts` are embedded.
-/

/-- A JavaScript number: NaN, or an exact (finite) value. -/
inductive JsNum where
  | nan : JsNum
  | num : ℚ → JsNum
deriving DecidableEq, Repr

namespace JsNum

/-- JS `x > 0`: false when `x` is NaN. -/
def gtZero : JsNum → Bool
  | nan => false
  | num q => decide (0 < q)

/-- JS division as used in the source: NaN operands propagate.  Every
division in the embedded code is guarded by a strict-positivity test on the
divisor, so the divisor-zero branch (JS would give ±∞ or NaN) is modelled as
NaN and is never reached under the guards. -/
def div : JsNum → JsNum → JsNum
  | num a, num b => if b = 0 then nan else num (a / b)
  | _, _ => nan

end JsNum

/-- JS string truthiness for possibly-absent string fields: `undefined` and
`""` are falsy, every other string truthy. -/
def truthy : Option String → Bool
  | none => false
  | some s => !(s == "")

/-- JS `field || '0'` for a possibly-absent string field. -/
def jsOr0 : Option String → String
  | none => "0"
  | some s => if s == "" then "0" else s

/-- Numeric value of a decimal-digit list (most significant first). -/
def digitsToNat (l : List Char) : ℕ :=
  l.foldl (fun a c => 10 * a + (c.toNat - '0'.toNat)) 0

/-- Hexadecimal digit predicate (JS `parseInt` hex runs). -/
def isHexDigitChar (c : Char) : Bool :=
  c.isDigit || ('a' ≤ c && c ≤ 'f') || ('A' ≤ c && c ≤ 'F')

/-- Numeric value of a hex-digit list (most significant first). -/
def hexDigitsToNat (l : List Char) : ℕ :=
  l.foldl (fun a c =>
    16 * a +
      (if c.isDigit then c.toNat - '0'.toNat
       else if 'a' ≤ c ∧ c ≤ 'f' then c.toNat - 'a'.toNat + 10
       else c.toNat - 'A'.toNat + 10)) 0

/-- The whitespace characters skipped by JS `parseFloat` / `parseInt`. -/
def jsWhitespace (c : Char) : Bool :=
  c = ' ' || c = '\t' || c = '\n' || c = '\r' || c = '\x0b' || c = '\x0c'

/-- Exponent suffix of JS `parseFloat`: optional sign then digits; if no
digit follows, the exponent marker is not consumed and the exponent is 0. -/
def expPart (l : List Char) : Int :=
  let signAndRest : Int × List Char :=
    match l with
    | '-' :: r => (-1, r)
    | '+' :: r => (1, r)
    | _ => (1, l)
  let ds := signAndRest.2.takeWhile Char.isDigit
  if ds.isEmpty then 0 else signAndRest.1 * (digitsToNat ds : Int)

/-- JS `parseFloat` on decimal input: skip whitespace, optional sign, the
longest prefix `digits [ '.' digits ] [ ('e'|'E') [sign] digits ]`; NaN when
no digit occurs before the (optional) exponent. -/
def parseFloat (s : String) : JsNum :=
  let l := s.data.dropWhile jsWhitespace
  let signAndRest : Int × List Char :=
    match l with
    | '-' :: r => (-1, r)
    | '+' :: r => (1, r)
    | _ => (1, l)
  let sign := signAndRest.1
  let l₁ := signAndRest.2
  let intDigits := l₁.takeWhile Char.isDigit
  let l₂ := l₁.dropWhile Char.isDigit
  let fracAndRest : List Char × List Char :=
    match l₂ with
    | '.' :: r => (r.takeWhile Char.isDigit, r.dropWhile Char.isDigit)
    | _ => ([], l₂)
  let fracDigits := fracAndRest.1
  let l₃ := fracAndRest.2
  if intDigits.isEmpty ∧ fracDigits.isEmpty then JsNum.nan
  else
    let e : Int :=
      match l₃ with
      | 'e' :: r => expPart r
      | 'E' :: r => expPart r
      | _ => 0
    -- value = sign * (intDigits.fracDigits) * 10^e, built as an exact rational
    let mantNum : Int :=
      sign * ((digitsToNat intDigits : Int) * (10 ^ fracDigits.length : Int) +
        (digitsToNat fracDigits : Int))
    if 0 ≤ e then
      JsNum.num (mkRat (mantNum * 10 ^ e.toNat) (10 ^ fracDigits.length))
    else
      JsNum.num (mkRat mantNum (10 ^ (fracDigits.length + (-e).toNat)))

/-- JS `parseInt` with no radix argument: skip whitespace, optional sign,
then either a `0x`/`0X` hexadecimal digit run or a decimal digit run; NaN
when the digit run is empty. -/
def parseInt (s : String) : JsNum :=
  let l := s.data.dropWhile jsWhitespace
  let signAndRest : Int × List Char :=
    match l with
    | '-' :: r => (-1, r)
    | '+' :: r => (1, r)
    | _ => (1, l)
  let sign := signAndRest.1
  match signAndRest.2 with
  | '0' :: 'x' :: r =>
    let ds := r.takeWhile isHexDigitChar
    if ds.isEmpty then JsNum.nan else JsNum.num ((sign * hexDigitsToNat ds : Int) : ℚ)
  | '0' :: 'X' :: r =>
    let ds := r.takeWhile isHexDigitChar
    if ds.isEmpty then JsNum.nan else JsNum.num ((sign * hexDigitsToNat ds : Int) : ℚ)
  | l₁ =>
    let ds := l₁.takeWhile Char.isDigit
    if ds.isEmpty then JsNum.nan else JsNum.num ((sign * digitsToNat ds : Int) : ℚ)

/-- JS `cond ? parseInt(f) : 0` where `cond` is the truthiness of field `f`. -/
def parseIntIfTruthy (f : Option String) : JsNum :=
  if truthy f then parseInt (f.getD "") else JsNum.num 0

/-- JS `cond ? parseFloat(f) : 0` where `cond` is the truthiness of field `f`. -/
def parseFloatIfTruthy (f : Option String) : JsNum :=
  if truthy f then parseFloat (f.getD "") else JsNum.num 0

/-- JS `parseInt(f)` on a possibly-`undefined` field *without* a `|| '0'`
default: `parseInt(undefined)` coerces to `parseInt("undefined")`, i.e. NaN. -/
def parseIntUndef : Option String → JsNum
  | none => JsNum.nan
  | some s => parseInt s


/-! ## Raw insights records (Meta API response shape)

Mirrors the `actions` / `action_values` entry type and the per-record fields
declared in `MetaInsightsResponse` (`src/services/meta-api.ts`, lines 13-54);
route handlers receive the same records typed `any`, so every field is
optional here. -/

/-- One entry of `actions` / `action_values` / `video_play_actions`:
action type plus total and per-attribution-window figures, all raw strings. -/
structure ActionEntry where
  action_type : String
  value : Option String := none
  «1d_click» : Option String := none
  «7d_click» : Option String := none
  default : Option String := none
deriving DecidableEq, Repr

/-- One raw insights record (numeric fields are raw strings; all optional). -/
structure RawRecord where
  date_start : Option String := none
  date_stop : Option String := none
  impressions : Option String := none
  reach : Option String := none
  frequency : Option String := none
  clicks : Option String := none
  link_clicks : Option String := none
  ctr : Option String := none
  spend : Option String := none
  cpc : Option String := none
  cpm : Option String := none
  cpp : Option String := none
  actions : Option (List ActionEntry) := none
  action_values : Option (List ActionEntry) := none
  video_play_actions : Option (List ActionEntry) := none
  quality_ranking : Option String := none
  engagement_rate_ranking : Option String := none
deriving DecidableEq, Repr

/-- `{count, value}` for one attribution window (`PurchaseConversions`
sub-object in `src/types/meta-ads.ts`). -/
structure ConversionFigure where
  count : JsNum
  value : JsNum
deriving DecidableEq, Repr

/-- `PurchaseConversions` (`src/types/meta-ads.ts` lines 16-27): one figure
for default attribution, one for 7-day-click attribution. -/
structure PurchaseConversions where
  default : ConversionFigure
  «7d_click» : ConversionFigure
deriving DecidableEq, Repr

/-- The all-zero `PurchaseConversions`. -/
def zeroPurchases : PurchaseConversions :=
  { default := ⟨JsNum.num 0, JsNum.num 0⟩, «7d_click» := ⟨JsNum.num 0, JsNum.num 0⟩ }

/-- JS `actions?.find(action => action.action_type === 'purchase')`:
optional chaining on a possibly-`undefined` list. -/
def findPurchase : Option (List ActionEntry) → Option ActionEntry
  | none => none
  | some l => l.find? (fun a => a.action_type == "purchase")

/-- JS optional chain `entry?.f` for a field selector `f`. -/
def optField (f : ActionEntry → Option String) : Option ActionEntry → Option String
  | none => none
  | some e => f e

namespace MetaAPIService

/-- `MetaAPIService.extractPurchaseConversions` (`src/services/meta-api.ts`
lines 136-154): per window, parse the window-specific sub-field when truthy,
else 0 — no fallback to the total `value` field in this variant. -/
def extractPurchaseConversions (actions actionValues : Option (List ActionEntry)) :
    PurchaseConversions :=
  let purchaseAction := findPurchase actions
  let purchaseValue := findPurchase actionValues
  { default :=
      { count := parseIntIfTruthy (optField ActionEntry.default purchaseAction)
        value := parseFloatIfTruthy (optField ActionEntry.default purchaseValue) }
    «7d_click» :=
      { count := parseIntIfTruthy (optField ActionEntry.«7d_click» purchaseAction)
        value := parseFloatIfTruthy (optField ActionEntry.«7d_click» purchaseValue) } }

end MetaAPIService

namespace MetaAdsAPIService

/-- `MetaAdsAPIService.extractPurchaseConversions`
(`src/app/api/meta-insights/ads/route.ts` lines 86-106): the `default` window
falls back to the total `value` field when the `default` sub-field is not
truthy; the `7d_click` window has no fallback.  The route-handler classes in
`route.ts` (embedded as `MetaAPIRoute`) and `comparison/route.ts` duplicate
this body verbatim. -/
def extractPurchaseConversions (actions actionValues : Option (List ActionEntry)) :
    PurchaseConversions :=
  let purchaseAction := findPurchase actions
  let purchaseValue := findPurchase actionValues
  let defaultCount :=
    if truthy (optField ActionEntry.default purchaseAction) then
      parseInt ((optField ActionEntry.default purchaseAction).getD "")
    else if truthy (optField ActionEntry.value purchaseAction) then
      parseInt ((optField ActionEntry.value purchaseAction).getD "")
    else JsNum.num 0
  let defaultValue :=
    if truthy (optField ActionEntry.default purchaseValue) then
      parseFloat ((optField ActionEntry.default purchaseValue).getD "")
    else if truthy (optField ActionEntry.value purchaseValue) then
      parseFloat ((optField ActionEntry.value purchaseValue).getD "")
    else JsNum.num 0
  { default := { count := defaultCount, value := defaultValue }
    «7d_click» :=
      { count := parseIntIfTruthy (optField ActionEntry.«7d_click» purchaseAction)
        value := parseFloatIfTruthy (optField ActionEntry.«7d_click» purchaseValue) } }

end MetaAdsAPIService

namespace MetaAPIRoute

/-- `MetaAPIService.extractPurchaseConversions` of the route handler
(`src/app/api/meta-insights/route.ts` lines 84-104): identical body to the
ads-route variant (default window falls back to the total field). -/
def extractPurchaseConversions (actions actionValues : Option (List ActionEntry)) :
    PurchaseConversions :=
  let purchaseAction := findPurchase actions
  let purchaseValue := findPurchase actionValues
  let defaultCount :=
    if truthy (optField ActionEntry.default purchaseAction) then
      parseInt ((optField ActionEntry.default purchaseAction).getD "")
    else if truthy (optField ActionEntry.value purchaseAction) then
      parseInt ((optField ActionEntry.value purchaseAction).getD "")
    else JsNum.num 0
  let defaultValue :=
    if truthy (optField ActionEntry.default purchaseValue) then
      parseFloat ((optField ActionEntry.default purchaseValue).getD "")
    else if truthy (optField ActionEntry.value purchaseValue) then
      parseFloat ((optField ActionEntry.value purchaseValue).getD "")
    else JsNum.num 0
  { default := { count := defaultCount, value := defaultValue }
    «7d_click» :=
      { count := parseIntIfTruthy (optField ActionEntry.«7d_click» purchaseAction)
        value := parseFloatIfTruthy (optField ActionEntry.«7d_click» purchaseValue) } }

end MetaAPIRoute

namespace MetaComparisonAPIService

/-- `MetaComparisonAPIService.extractPurchaseConversions`
(`src/app/api/meta-insights/comparison/route.ts` lines 69-88): identical body
to the ads-route variant. -/
def extractPurchaseConversions (actions actionValues : Option (List ActionEntry)) :
    PurchaseConversions :=
  let purchaseAction := findPurchase actions
  let purchaseValue := findPurchase actionValues
  let defaultCount :=
    if truthy (optField ActionEntry.default purchaseAction) then
      parseInt ((optField ActionEntry.default purchaseAction).getD "")
    else if truthy (optField ActionEntry.value purchaseAction) then
      parseInt ((optField ActionEntry.value purchaseAction).getD "")
    else JsNum.num 0
  let defaultValue :=
    if truthy (optField ActionEntry.default purchaseValue) then
      parseFloat ((optField ActionEntry.default purchaseValue).getD "")
    else if truthy (optField ActionEntry.value purchaseValue) then
      parseFloat ((optField ActionEntry.value purchaseValue).getD "")
    else JsNum.num 0
  { default := { count := defaultCount, value := defaultValue }
    «7d_click» :=
      { count := parseIntIfTruthy (optField ActionEntry.«7d_click» purchaseAction)
        value := parseFloatIfTruthy (optField ActionEntry.«7d_click» purchaseValue) } }

end MetaComparisonAPIService

/-! ## Canonical metrics (`convertToMetrics`) -/

/-- `MetaAdMetrics` (`src/types/meta-ads.ts` lines 29-64), restricted to the
fields the converters actually populate. -/
structure MetaAdMetrics where
  spend : JsNum
  cpc : JsNum
  cpm : JsNum
  cpp : JsNum
  impressions : JsNum
  reach : JsNum
  frequency : JsNum
  clicks : JsNum
  link_clicks : JsNum
  ctr : JsNum
  purchases : PurchaseConversions
  conversions : JsNum
  conversion_rate : JsNum
  cost_per_conversion : JsNum
  roas : JsNum
  roas_7d_click : JsNum
  return_on_ad_spend : JsNum
  post_engagement : JsNum
  engagement_rate : JsNum
  video_play_actions : Option JsNum
  quality_ranking : Option String
  engagement_rate_ranking : Option String
deriving DecidableEq, Repr

/-- JS `data.video_play_actions?.[0]?.value ? parseInt(...) : undefined`. -/
def videoPlayField (l : Option (List ActionEntry)) : Option JsNum :=
  match l with
  | some (e :: _) =>
    match e.value with
    | some s => if s == "" then none else some (parseInt s)
    | none => none
  | _ => none

namespace MetaAPIService

/-- `MetaAPIService.convertToMetrics` (`src/services/meta-api.ts` lines
159-202): defensive parse of every numeric field with `|| '0'` defaults,
purchase extraction, and guarded derived ratios. -/
def convertToMetrics (data : RawRecord) : MetaAdMetrics :=
  let purchases := extractPurchaseConversions data.actions data.action_values
  let spend := parseFloat (jsOr0 data.spend)
  let roasDefault := if spend.gtZero then purchases.default.value.div spend else JsNum.num 0
  let roas7dClick := if spend.gtZero then purchases.«7d_click».value.div spend else JsNum.num 0
  { spend := spend
    cpc := parseFloat (jsOr0 data.cpc)
    cpm := parseFloat (jsOr0 data.cpm)
    cpp := parseFloat (jsOr0 data.cpp)
    impressions := parseInt (jsOr0 data.impressions)
    reach := parseInt (jsOr0 data.reach)
    frequency := parseFloat (jsOr0 data.frequency)
    clicks := parseInt (jsOr0 data.clicks)
    link_clicks := parseInt (jsOr0 data.link_clicks)
    ctr := parseFloat (jsOr0 data.ctr)
    purchases := purchases
    conversions := purchases.default.count
    conversion_rate :=
      if (parseInt (jsOr0 data.clicks)).gtZero then
        purchases.default.count.div (parseIntUndef data.clicks)
      else JsNum.num 0
    cost_per_conversion :=
      if purchases.default.count.gtZero then spend.div purchases.default.count
      else JsNum.num 0
    roas := roasDefault
    roas_7d_click := roas7dClick
    return_on_ad_spend := roasDefault
    post_engagement := JsNum.num 0
    engagement_rate := JsNum.num 0
    video_play_actions := videoPlayField data.video_play_actions
    quality_ranking := data.quality_ranking
    engagement_rate_ranking := data.engagement_rate_ranking }

end MetaAPIService

namespace MetaAPIRoute

/-- `MetaAPIService.convertToMetrics` of the route handler
(`src/app/api/meta-insights/route.ts` lines 107-150): same body as the
library variant but using the route handler's own (fallback) extractor. -/
def convertToMetrics (data : RawRecord) : MetaAdMetrics :=
  let purchases := extractPurchaseConversions data.actions data.action_values
  let spend := parseFloat (jsOr0 data.spend)
  let roasDefault := if spend.gtZero then purchases.default.value.div spend else JsNum.num 0
  let roas7dClick := if spend.gtZero then purchases.«7d_click».value.div spend else JsNum.num 0
  { spend := spend
    cpc := parseFloat (jsOr0 data.cpc)
    cpm := parseFloat (jsOr0 data.cpm)
    cpp := parseFloat (jsOr0 data.cpp)
    impressions := parseInt (jsOr0 data.impressions)
    reach := parseInt (jsOr0 data.reach)
    frequency := parseFloat (jsOr0 data.frequency)
    clicks := parseInt (jsOr0 data.clicks)
    link_clicks := parseInt (jsOr0 data.link_clicks)
    ctr := parseFloat (jsOr0 data.ctr)
    purchases := purchases
    conversions := purchases.default.count
    conversion_rate :=
      if (parseInt (jsOr0 data.clicks)).gtZero then
        purchases.default.count.div (parseIntUndef data.clicks)
      else JsNum.num 0
    cost_per_conversion :=
      if purchases.default.count.gtZero then spend.div purchases.default.count
      else JsNum.num 0
    roas := roasDefault
    roas_7d_click := roas7dClick
    return_on_ad_spend := roasDefault
    post_engagement := JsNum.num 0
    engagement_rate := JsNum.num 0
    video_play_actions := videoPlayField data.video_play_actions
    quality_ranking := data.quality_ranking
    engagement_rate_ranking := data.engagement_rate_ranking }

end MetaAPIRoute

namespace MetaComparisonAPIService

/-- `MetaComparisonAPIService.convertToMetrics`
(`src/app/api/meta-insights/comparison/route.ts` lines 91-122): same body as
the route-handler variant. -/
def convertToMetrics (data : RawRecord) : MetaAdMetrics :=
  let purchases := extractPurchaseConversions data.actions data.action_values
  let spend := parseFloat (jsOr0 data.spend)
  let roasDefault := if spend.gtZero then purchases.default.value.div spend else JsNum.num 0
  let roas7dClick := if spend.gtZero then purchases.«7d_click».value.div spend else JsNum.num 0
  { spend := spend
    cpc := parseFloat (jsOr0 data.cpc)
    cpm := parseFloat (jsOr0 data.cpm)
    cpp := parseFloat (jsOr0 data.cpp)
    impressions := parseInt (jsOr0 data.impressions)
    reach := parseInt (jsOr0 data.reach)
    frequency := parseFloat (jsOr0 data.frequency)
    clicks := parseInt (jsOr0 data.clicks)
    link_clicks := parseInt (jsOr0 data.link_clicks)
    ctr := parseFloat (jsOr0 data.ctr)
    purchases := purchases
    conversions := purchases.default.count
    conversion_rate :=
      if (parseInt (jsOr0 data.clicks)).gtZero then
        purchases.default.count.div (parseIntUndef data.clicks)
      else JsNum.num 0
    cost_per_conversion :=
      if purchases.default.count.gtZero then spend.div purchases.default.count
      else JsNum.num 0
    roas := roasDefault
    roas_7d_click := roas7dClick
    return_on_ad_spend := roasDefault
    post_engagement := JsNum.num 0
    engagement_rate := JsNum.num 0
    video_play_actions := videoPlayField data.video_play_actions
    quality_ranking := data.quality_ranking
    engagement_rate_ranking := data.engagement_rate_ranking }

end MetaComparisonAPIService

/-! ## Insights fetching (`fetchInsights` and the query it builds)

The `fetch` builtin is modelled as an oracle from the query-parameter list
built by the code to an HTTP response, so theorems quantify over every
behaviour of the external API.  `HttpResponse.json` is the parsed body that
`response.json()` would yield when the code consumes it. -/

/-- `paging.cursors` of a Meta insights response. -/
structure Cursors where
  before : String
  after : String
deriving DecidableEq, Repr

/-- `paging` of a Meta insights response: cursors plus the optional
continuation URL `next` (absent on the final page). -/
structure Paging where
  cursors : Cursors
  next : Option String
deriving DecidableEq, Repr

/-- `MetaInsightsResponse` (`src/services/meta-api.ts` lines 13-54): one page
of records plus optional paging information. -/
structure MetaInsightsResponse where
  data : List RawRecord
  paging : Option Paging
deriving DecidableEq, Repr

/-- The observable parts of a `fetch` response consumed by the code. -/
structure HttpResponse where
  ok : Bool
  status : ℕ
  statusText : String
  body : String
  json : MetaInsightsResponse
deriving DecidableEq, Repr

/-- The external HTTP layer: query-parameter list → response. -/
abbrev Http := List (String × String) → HttpResponse

/-- Entity level of an insights request. -/
inductive Level where
  | account
  | campaign
  | adset
  | ad
deriving DecidableEq, Repr

/-- The string sent for each level. -/
def Level.toParam : Level → String
  | .account => "account"
  | .campaign => "campaign"
  | .adset => "adset"
  | .ad => "ad"

/-- `{since, until}` date range (ISO date strings). -/
structure DateRange where
  since : String
  «until» : String
deriving DecidableEq, Repr

/-- `JSON.stringify({since, until})`. -/
def timeRangeJson (r : DateRange) : String :=
  "\x7b\"since\":\"" ++ r.since ++ "\",\"until\":\"" ++ r.«until» ++ "\"\x7d"

/-- JSON array of strings. -/
def jsonStringList (ids : List String) : String :=
  "[" ++ String.intercalate "," (ids.map (fun i => "\"" ++ i ++ "\"")) ++ "]"

/-- `JSON.stringify([{field:'campaign.id',operator:'IN',value:ids}])`. -/
def campaignFilterJson (ids : List String) : String :=
  "[\x7b\"field\":\"campaign.id\",\"operator\":\"IN\",\"value\":" ++
    jsonStringList ids ++ "\x7d]"

/-- `JSON.stringify([{field:'spend',operator:'GREATER_THAN',value:0}])`. -/
def spendFilterJson : String :=
  "[\x7b\"field\":\"spend\",\"operator\":\"GREATER_THAN\",\"value\":0\x7d]"

namespace MetaAPIService

/-- Request parameters of `MetaAPIService.fetchInsights`
(`src/services/meta-api.ts` lines 69-74). -/
structure FetchParams where
  dateRange : DateRange
  level : Level
  campaignIds : Option (List String) := none
  breakdowns : Option (List String) := none

/-- The `fields` list requested by the library service (lines 88-105). -/
def requestedFields : List String :=
  ["date_start", "date_stop", "impressions", "reach", "frequency", "clicks",
   "ctr", "spend", "cpc", "cpm", "cpp", "actions", "action_values",
   "video_play_actions", "quality_ranking", "engagement_rate_ranking"]

/-- The query-parameter list built by `fetchInsights` (lines 80-122): the
base `URLSearchParams` literal, then the conditional `filtering` and
`breakdowns` appends. -/
def insightsQuery (accessToken : String) (params : FetchParams) :
    List (String × String) :=
  [("access_token", accessToken),
   ("level", params.level.toParam),
   ("time_range", timeRangeJson params.dateRange),
   ("fields", String.intercalate "," requestedFields),
   ("action_attribution_windows", String.intercalate "," ["default", "7d_click"]),
   ("limit", "100")] ++
  (match params.campaignIds with
   | some ids => if ids.length > 0 then [("filtering", campaignFilterJson ids)] else []
   | none => []) ++
  (match params.breakdowns with
   | some bs => if bs.length > 0 then [("breakdowns", String.intercalate "," bs)] else []
   | none => [])

/-- `MetaAPIService.fetchInsights` (`src/services/meta-api.ts` lines 69-131):
one `fetch` of the built query; a non-ok response throws
`Meta API Error: <status> <statusText>`; an ok response returns the parsed
body — the single page — as-is. -/
def fetchInsights (accessToken : String) (http : Http) (params : FetchParams) :
    Except String MetaInsightsResponse :=
  let response := http (insightsQuery accessToken params)
  if !response.ok then
    Except.error ("Meta API Error: " ++ toString response.status ++ " " ++
      response.statusText)
  else
    Except.ok response.json

end MetaAPIService

namespace MetaAPIRoute

/-- Request parameters of the route handler's `fetchInsights`
(`src/app/api/meta-insights/route.ts` lines 23-27). -/
structure FetchParams where
  dateRange : DateRange
  level : Level
  breakdowns : Option (List String) := none

/-- The `fields` list requested by the route handler (lines 38-57): the
library list plus `campaign_name` / `campaign_id`. -/
def requestedFields : List String :=
  ["date_start", "date_stop", "campaign_name", "campaign_id", "impressions",
   "reach", "frequency", "clicks", "ctr", "spend", "cpc", "cpm", "cpp",
   "actions", "action_values", "video_play_actions", "quality_ranking",
   "engagement_rate_ranking"]

/-- The query-parameter list built by the route handler's `fetchInsights`
(lines 30-66). -/
def insightsQuery (accessToken : String) (params : FetchParams) :
    List (String × String) :=
  [("access_token", accessToken),
   ("level", params.level.toParam),
   ("time_range", timeRangeJson params.dateRange),
   ("fields", String.intercalate "," requestedFields),
   ("action_attribution_windows", String.intercalate "," ["default", "7d_click"]),
   ("limit", "100")] ++
  (match params.breakdowns with
   | some bs => if bs.length > 0 then [("breakdowns", String.intercalate "," bs)] else []
   | none => [])

/-- Route handler `fetchInsights` (`src/app/api/meta-insights/route.ts` lines
23-81): on a non-ok response the body is read (`errorText`) but only written
to `console.error`; the thrown error carries the status and statusText only. -/
def fetchInsights (accessToken : String) (http : Http) (params : FetchParams) :
    Except String MetaInsightsResponse :=
  let response := http (insightsQuery accessToken params)
  if !response.ok then
    Except.error ("Meta API Error: " ++ toString response.status ++ " " ++
      response.statusText)
  else
    Except.ok response.json

end MetaAPIRoute

namespace MetaComparisonAPIService

/-- The query-parameter list built by `MetaComparisonAPIService.fetchInsights`
(`src/app/api/meta-insights/comparison/route.ts` lines 27-54); the level is
fixed to `account`. -/
def insightsQuery (accessToken : String) (dateRange : DateRange) :
    List (String × String) :=
  [("access_token", accessToken),
   ("level", "account"),
   ("time_range", timeRangeJson dateRange),
   ("fields", String.intercalate "," MetaAPIService.requestedFields),
   ("action_attribution_windows", String.intercalate "," ["default", "7d_click"]),
   ("limit", "100")]

/-- `MetaComparisonAPIService.fetchInsights`
(`src/app/api/meta-insights/comparison/route.ts` lines 24-66): the body of a
non-ok response is read but only logged; the thrown error carries status and
statusText only. -/
def fetchInsights (accessToken : String) (http : Http) (dateRange : DateRange) :
    Except String MetaInsightsResponse :=
  let response := http (insightsQuery accessToken dateRange)
  if !response.ok then
    Except.error ("Meta Comparison API Error: " ++ toString response.status ++ " " ++
      response.statusText)
  else
    Except.ok response.json

end MetaComparisonAPIService

namespace MetaAdsAPIService

/-- The `fields` list requested by the ads route (lines 35-58). -/
def requestedFields : List String :=
  ["date_start", "date_stop", "ad_id", "ad_name", "adset_id", "adset_name",
   "campaign_id", "campaign_name", "impressions", "reach", "frequency",
   "clicks", "ctr", "spend", "cpc", "cpm", "cpp", "actions", "action_values",
   "video_play_actions", "quality_ranking", "engagement_rate_ranking"]

/-- The query-parameter list built by `fetchAdInsights`
(`src/app/api/meta-insights/ads/route.ts` lines 27-68): level fixed to `ad`,
with the server-side spend>0 filter in the base literal. -/
def adInsightsQuery (accessToken : String) (dateRange : DateRange) :
    List (String × String) :=
  [("access_token", accessToken),
   ("level", "ad"),
   ("time_range", timeRangeJson dateRange),
   ("fields", String.intercalate "," requestedFields),
   ("action_attribution_windows", String.intercalate "," ["default", "7d_click"]),
   ("limit", "100"),
   ("filtering", spendFilterJson)]

/-- `MetaAdsAPIService.fetchAdInsights`
(`src/app/api/meta-insights/ads/route.ts` lines 24-83). -/
def fetchAdInsights (accessToken : String) (http : Http) (dateRange : DateRange) :
    Except String MetaInsightsResponse :=
  let response := http (adInsightsQuery accessToken dateRange)
  if !response.ok then
    Except.error ("Meta Ads API Error: " ++ toString response.status ++ " " ++
      response.statusText)
  else
    Except.ok response.json

end MetaAdsAPIService

/-! ## Date helpers (`src/lib/utils.ts`)

Dates are `Int` day numbers (days since 1970-01-01, a Thursday);
`Date.prototype.getDay` returns 0 for Sunday … 6 for Saturday, so
`getDay n = (n + 4) % 7`.  `d.setDate(x)` replaces the day-of-month and
normalizes, i.e. shifts the date by `x - d.getDate()` days, so
`d.setDate(d.getDate() - day + k)` is exactly `d + (k - day)` days. -/

/-- `Date.prototype.getDay`: 0 = Sunday, …, 1 = Monday, …, 6 = Saturday. -/
def getDay (n : Int) : Int := (n + 4) % 7

/-- `getLastMonday` (`src/lib/utils.ts`):
`diff = d.getDate() - day + (day === 0 ? -6 : 1) - 7; d.setDate(diff)`. -/
def getLastMonday (n : Int) : Int :=
  n - getDay n + (if getDay n = 0 then -6 else 1) - 7

/-- `getLastSunday` (`src/lib/utils.ts`): last Monday plus six days
(`lastSunday.setDate(lastMonday.getDate() + 6)`). -/
def getLastSunday (n : Int) : Int := getLastMonday n + 6

/-- Modelled from the spec: the claim's comparison point "the most recent
Monday (the latest Monday on or before the reference date)".  This definition
follows the spec's words, to be compared against `getLastMonday` from the
source. -/
def mostRecentMondayOnOrBefore (n : Int) : Int :=
  n - (getDay n + 6) % 7

/-- `mostRecentMondayOnOrBefore` really is the latest Monday on or before the
reference date: it is a Monday, is at most the reference date, and is fewer
than seven days before it. -/
lemma mostRecentMondayOnOrBefore_correct (n : Int) :
    getDay (mostRecentMondayOnOrBefore n) = 1 ∧
    mostRecentMondayOnOrBefore n ≤ n ∧
    n - 6 ≤ mostRecentMondayOnOrBefore n := by
  unfold mostRecentMondayOnOrBefore getDay
  omega

/-! ## Concrete data used by witnesses and counterexamples -/

/-- A raw record with every field absent. -/
def emptyRecord : RawRecord := {}

/-- A raw record whose spend field is a malformed numeric string. -/
def malformedRecord : RawRecord := { spend := some "abc" }

/-- A purchase `actions` entry carrying only the total `value` field (no
per-window sub-fields). -/
def purchaseTotalOnly : ActionEntry := { action_type := "purchase", value := some "5" }

/-- A purchase `action_values` entry carrying only the total `value` field. -/
def purchaseValueTotalOnly : ActionEntry := { action_type := "purchase", value := some "7.5" }

/-- First page served by the paginated oracle: one record, with live
continuation cursors (`next` present). -/
def page1 : MetaInsightsResponse :=
  { data := [{ spend := some "100" }]
    paging := some { cursors := ⟨"BEFORE1", "CURSOR_AFTER"⟩
                     next := some "https://graph.facebook.com/v23.0/next" } }

/-- Second page, reachable only through the continuation cursor. -/
def page2 : MetaInsightsResponse :=
  { data := [{ spend := some "50" }]
    paging := some { cursors := ⟨"BEFORE2", "AFTER2"⟩, next := none } }

/-- A 200 response carrying the given parsed body. -/
def okResponse (j : MetaInsightsResponse) : HttpResponse :=
  { ok := true, status := 200, statusText := "OK", body := "", json := j }

/-- An external API with two pages: requests carrying the continuation
cursor advertised by `page1` get `page2`, all others get `page1`. -/
def pagedHttp : Http := fun q =>
  if ("after", "CURSOR_AFTER") ∈ q then okResponse page2 else okResponse page1

/-- The raw body of a permanent external-API rejection. -/
def rejectionBody : String := "(#100) Invalid parameter: time_range"

/-- An external API that rejects every request with HTTP 400 and a
diagnostic body. -/
def rejectionHttp : Http := fun _ =>
  { ok := false, status := 400, statusText := "Bad Request",
    body := rejectionBody, json := { data := [], paging := none } }

/-- A concrete date range for witnesses. -/
def sampleRange : DateRange := { since := "2024-01-01", «until» := "2024-01-07" }

/-- Concrete request parameters for the library service. -/
def sampleParams : MetaAPIService.FetchParams :=
  { dateRange := sampleRange, level := Level.campaign }

/-- Concrete request parameters for the route-handler service. -/
def sampleRouteParams : MetaAPIRoute.FetchParams :=
  { dateRange := sampleRange, level := Level.account }

/-! ## Claims about the week-boundary helpers -/

/-- C8: for every reference date, the computed week start (`getLastMonday`)
falls on a Monday and the computed week end (`getLastSunday`) is exactly six
days later, falling on the following Sunday, regardless of which day of the
week the reference date falls on. -/
theorem week_start_monday_week_end_sunday (n : Int) :
    getDay (getLastMonday n) = 1 ∧
    getLastSunday n = getLastMonday n + 6 ∧
    getDay (getLastSunday n) = 0 := by
  unfold getLastSunday getLastMonday getDay
  split_ifs with h <;> omega

/-- C9 counterexample: for a reference date that is itself a Monday (day
number 4 = 1970-01-05), the latest Monday on or before it is the date itself,
but `getLastMonday` walks back a further week and returns day number −3
(1969-12-29). -/
theorem getLastMonday_skips_most_recent_monday :
    getDay 4 = 1 ∧
    mostRecentMondayOnOrBefore 4 = 4 ∧
    getLastMonday 4 = -3 ∧
    getLastMonday 4 ≠ mostRecentMondayOnOrBefore 4 := by decide

/-- C9 amended: the week start used for weekly periods is the Monday one full
week before the most recent Monday on or before the reference date (the
previous week's Monday), not that most recent Monday itself. -/
theorem getLastMonday_is_previous_week_monday (n : Int) :
    getLastMonday n = mostRecentMondayOnOrBefore n - 7 := by
  unfold getLastMonday mostRecentMondayOnOrBefore getDay
  split_ifs with h <;> omega

/-! ## Claims about the built insights queries -/

/-- The attribution-window list the fetchers send, as joined by the code. -/
lemma windows_param_value :
    String.intercalate "," ["default", "7d_click"] = "default,7d_click" := rfl

/-- C7: every request the insights fetchers construct — regardless of date
range, entity level, breakdowns, or id filter — carries an
`action_attribution_windows` parameter listing both `default` and
`7d_click`. -/
theorem attribution_windows_always_included (tok : String)
    (p : MetaAPIService.FetchParams) (p' : MetaAPIRoute.FetchParams)
    (r : DateRange) :
    ("action_attribution_windows", "default,7d_click") ∈
        MetaAPIService.insightsQuery tok p ∧
    ("action_attribution_windows", "default,7d_click") ∈
        MetaAPIRoute.insightsQuery tok p' ∧
    ("action_attribution_windows", "default,7d_click") ∈
        MetaAdsAPIService.adInsightsQuery tok r := by
  refine ⟨?_, ?_, ?_⟩ <;>
    simp [MetaAPIService.insightsQuery, MetaAPIRoute.insightsQuery,
      MetaAdsAPIService.adInsightsQuery, windows_param_value]

/-! ## Claims about the metrics normalizer -/

/-- C1: for every raw insights record whose spend field parses to 0
(including an absent spend field, which defaults to `'0'`), both normalizers
cited by the spec return 0 for the ROAS of every attribution window (`roas`
and `roas_7d_click`).  The `value / spend` division is guarded by the strict
test `spend > 0`, so no division is performed at all on such records. -/
theorem roas_zero_when_spend_parses_zero (data : RawRecord)
    (h : parseFloat (jsOr0 data.spend) = JsNum.num 0) :
    (MetaAPIRoute.convertToMetrics data).roas = JsNum.num 0 ∧
    (MetaAPIRoute.convertToMetrics data).roas_7d_click = JsNum.num 0 ∧
    (MetaComparisonAPIService.convertToMetrics data).roas = JsNum.num 0 ∧
    (MetaComparisonAPIService.convertToMetrics data).roas_7d_click = JsNum.num 0 := by
  simp [MetaAPIRoute.convertToMetrics, MetaComparisonAPIService.convertToMetrics,
    h, JsNum.gtZero]

/-- C1 witness: the all-absent record has a spend that parses to 0 and, by
`roas_zero_when_spend_parses_zero`, zero ROAS in every window. -/
theorem roas_zero_when_spend_parses_zero_witness :
    parseFloat (jsOr0 emptyRecord.spend) = JsNum.num 0 ∧
    ((MetaAPIRoute.convertToMetrics emptyRecord).roas = JsNum.num 0 ∧
     (MetaAPIRoute.convertToMetrics emptyRecord).roas_7d_click = JsNum.num 0 ∧
     (MetaComparisonAPIService.convertToMetrics emptyRecord).roas = JsNum.num 0 ∧
     (MetaComparisonAPIService.convertToMetrics emptyRecord).roas_7d_click = JsNum.num 0) :=
  ⟨by decide, roas_zero_when_spend_parses_zero emptyRecord (by decide)⟩

/-- C10: every canonical metrics object produced by the cited normalizers
satisfies the invariants: `conversions` equals `purchases.default.count`,
`return_on_ad_spend` equals `roas`, and `conversion_rate` is 0 whenever
the clicks field parses to 0 (the `clicks > 0` guard). -/
theorem canonical_metrics_invariants (data : RawRecord) :
    (MetaAPIRoute.convertToMetrics data).conversions =
      (MetaAPIRoute.convertToMetrics data).purchases.default.count ∧
    (MetaAPIRoute.convertToMetrics data).return_on_ad_spend =
      (MetaAPIRoute.convertToMetrics data).roas ∧
    (MetaAPIService.convertToMetrics data).conversions =
      (MetaAPIService.convertToMetrics data).purchases.default.count ∧
    (MetaAPIService.convertToMetrics data).return_on_ad_spend =
      (MetaAPIService.convertToMetrics data).roas ∧
    (parseInt (jsOr0 data.clicks) = JsNum.num 0 →
      (MetaAPIRoute.convertToMetrics data).conversion_rate = JsNum.num 0 ∧
      (MetaAPIService.convertToMetrics data).conversion_rate = JsNum.num 0) := by
  refine ⟨rfl, rfl, rfl, rfl, fun h => ?_⟩
  constructor <;>
    simp [MetaAPIRoute.convertToMetrics, MetaAPIService.convertToMetrics, h,
      JsNum.gtZero]

/-- C10 witness: the invariants evaluated on the all-absent record, whose
clicks field parses to 0. -/
theorem canonical_metrics_invariants_witness :
    ((MetaAPIRoute.convertToMetrics emptyRecord).conversions =
       (MetaAPIRoute.convertToMetrics emptyRecord).purchases.default.count ∧
     (MetaAPIRoute.convertToMetrics emptyRecord).return_on_ad_spend =
       (MetaAPIRoute.convertToMetrics emptyRecord).roas ∧
     (MetaAPIService.convertToMetrics emptyRecord).conversions =
       (MetaAPIService.convertToMetrics emptyRecord).purchases.default.count ∧
     (MetaAPIService.convertToMetrics emptyRecord).return_on_ad_spend =
       (MetaAPIService.convertToMetrics emptyRecord).roas) ∧
    parseInt (jsOr0 emptyRecord.clicks) = JsNum.num 0 ∧
    (MetaAPIRoute.convertToMetrics emptyRecord).conversion_rate = JsNum.num 0 ∧
    (MetaAPIService.convertToMetrics emptyRecord).conversion_rate = JsNum.num 0 := by
  have h := canonical_metrics_invariants emptyRecord
  exact ⟨⟨h.1, h.2.1, h.2.2.1, h.2.2.2.1⟩, by decide,
    (h.2.2.2.2 (by decide)).1, (h.2.2.2.2 (by decide)).2⟩

/-! ## Claims about the attribution extractors -/

/-- C2: `extractPurchaseConversions` is a total function (never throws: in
this embedding it is defined on every pair of optional lists, including
`undefined` lists and lists with no `purchase` entry) whose result always
carries an entry for both recognized windows (`default` and `7d_click`, the
two fields of `PurchaseConversions`), zero-filled for windows absent from the
input: when the purchase lookup finds nothing everything is zero, and when a
purchase entry lacks a window's sub-field (for the ads-route variant's
`default` window: lacks both the sub-field and the total field) that window's
figure is zero. -/
theorem extractPurchaseConversions_total_zero_filled
    (acts avs : Option (List ActionEntry)) :
    (findPurchase acts = none → findPurchase avs = none →
      MetaAPIService.extractPurchaseConversions acts avs = zeroPurchases ∧
      MetaAdsAPIService.extractPurchaseConversions acts avs = zeroPurchases) ∧
    (truthy (optField ActionEntry.«7d_click» (findPurchase acts)) = false →
      (MetaAPIService.extractPurchaseConversions acts avs).«7d_click».count = JsNum.num 0 ∧
      (MetaAdsAPIService.extractPurchaseConversions acts avs).«7d_click».count = JsNum.num 0) ∧
    (truthy (optField ActionEntry.«7d_click» (findPurchase avs)) = false →
      (MetaAPIService.extractPurchaseConversions acts avs).«7d_click».value = JsNum.num 0 ∧
      (MetaAdsAPIService.extractPurchaseConversions acts avs).«7d_click».value = JsNum.num 0) ∧
    (truthy (optField ActionEntry.default (findPurchase acts)) = false →
      (MetaAPIService.extractPurchaseConversions acts avs).default.count = JsNum.num 0) ∧
    (truthy (optField ActionEntry.default (findPurchase avs)) = false →
      (MetaAPIService.extractPurchaseConversions acts avs).default.value = JsNum.num 0) ∧
    (truthy (optField ActionEntry.default (findPurchase acts)) = false →
      truthy (optField ActionEntry.value (findPurchase acts)) = false →
      (MetaAdsAPIService.extractPurchaseConversions acts avs).default.count = JsNum.num 0) ∧
    (truthy (optField ActionEntry.default (findPurchase avs)) = false →
      truthy (optField ActionEntry.value (findPurchase avs)) = false →
      (MetaAdsAPIService.extractPurchaseConversions acts avs).default.value = JsNum.num 0) := by
  refine ⟨fun ha hv => ?_, fun h => ?_, fun h => ?_, fun h => ?_, fun h => ?_,
    fun h h' => ?_, fun h h' => ?_⟩ <;>
    simp_all [MetaAPIService.extractPurchaseConversions,
      MetaAdsAPIService.extractPurchaseConversions, zeroPurchases,
      parseIntIfTruthy, parseFloatIfTruthy, optField, truthy]

/-- C2 witness: evaluated with both lists `undefined` (everything zero) — the
case that would throw if the extractors did not guard missing fields. -/
theorem extractPurchaseConversions_total_zero_filled_witness :
    (MetaAPIService.extractPurchaseConversions none none = zeroPurchases ∧
     MetaAdsAPIService.extractPurchaseConversions none none = zeroPurchases) ∧
    (MetaAPIService.extractPurchaseConversions none none).«7d_click».count = JsNum.num 0 ∧
    (MetaAdsAPIService.extractPurchaseConversions none none).default.value = JsNum.num 0 := by
  have h := extractPurchaseConversions_total_zero_filled none none
  exact ⟨h.1 rfl rfl, (h.2.1 rfl).1, h.2.2.2.2.2.2 rfl rfl⟩

/-- C4 counterexample: a purchase entry whose `7d_click` sub-field is absent
but whose total `value` field is `"5"` (values list: `"7.5"`).  The claimed
fallback ("for every recognized window … otherwise falls back to the entry's
total/default field") would give a `7d_click` count of 5 and value of 7.5,
but the ads-route extractor yields 0 for both: the fallback exists only for
the `default` window (whose figures do pick up 5 and 7.5 here). -/
theorem no_fallback_for_7d_click_window :
    (MetaAdsAPIService.extractPurchaseConversions
        (some [purchaseTotalOnly]) (some [purchaseValueTotalOnly])).«7d_click».count
        = JsNum.num 0 ∧
    (MetaAdsAPIService.extractPurchaseConversions
        (some [purchaseTotalOnly]) (some [purchaseValueTotalOnly])).«7d_click».value
        = JsNum.num 0 ∧
    (MetaAdsAPIService.extractPurchaseConversions
        (some [purchaseTotalOnly]) (some [purchaseValueTotalOnly])).default.count
        = JsNum.num 5 ∧
    parseInt "5" = JsNum.num 5 ∧ (JsNum.num 0 : JsNum) ≠ JsNum.num 5 ∧
    (MetaAPIService.extractPurchaseConversions
        (some [purchaseTotalOnly]) (some [purchaseValueTotalOnly])).default.count
        = JsNum.num 0 := by decide

/-- C4 amended: the fallback to the entry's total `value` field applies only
to the `default` window, and only in the route-handler extractors (ads /
comparison / main route): there `default` reads the window sub-field when
truthy, else the total field when truthy, else 0, while `7d_click` reads its
sub-field when truthy and otherwise yields 0 with no fallback; the library
extractor (`src/services/meta-api.ts`) applies no fallback for either
window. -/
theorem extract_window_fallback_chain (acts avs : Option (List ActionEntry))
    (pa pv : ActionEntry)
    (ha : findPurchase acts = some pa) (hv : findPurchase avs = some pv) :
    (truthy pa.default = true →
      (MetaAdsAPIService.extractPurchaseConversions acts avs).default.count =
        parseInt (pa.default.getD "")) ∧
    (truthy pa.default = false → truthy pa.value = true →
      (MetaAdsAPIService.extractPurchaseConversions acts avs).default.count =
        parseInt (pa.value.getD "")) ∧
    (truthy pa.default = false → truthy pa.value = false →
      (MetaAdsAPIService.extractPurchaseConversions acts avs).default.count =
        JsNum.num 0) ∧
    (truthy pa.«7d_click» = true →
      (MetaAdsAPIService.extractPurchaseConversions acts avs).«7d_click».count =
        parseInt (pa.«7d_click».getD "")) ∧
    (truthy pa.«7d_click» = false →
      (MetaAdsAPIService.extractPurchaseConversions acts avs).«7d_click».count =
        JsNum.num 0) ∧
    (truthy pv.default = true →
      (MetaAdsAPIService.extractPurchaseConversions acts avs).default.value =
        parseFloat (pv.default.getD "")) ∧
    (truthy pv.default = false → truthy pv.value = true →
      (MetaAdsAPIService.extractPurchaseConversions acts avs).default.value =
        parseFloat (pv.value.getD "")) ∧
    (truthy pv.«7d_click» = false →
      (MetaAdsAPIService.extractPurchaseConversions acts avs).«7d_click».value =
        JsNum.num 0) ∧
    (truthy pa.default = false →
      (MetaAPIService.extractPurchaseConversions acts avs).default.count =
        JsNum.num 0) ∧
    (truthy pa.«7d_click» = false →
      (MetaAPIService.extractPurchaseConversions acts avs).«7d_click».count =
        JsNum.num 0) := by
  refine ⟨fun h => ?_, fun h h' => ?_, fun h h' => ?_, fun h => ?_, fun h => ?_,
    fun h => ?_, fun h h' => ?_, fun h => ?_, fun h => ?_, fun h => ?_⟩ <;>
    simp_all [MetaAdsAPIService.extractPurchaseConversions,
      MetaAPIService.extractPurchaseConversions,
      parseIntIfTruthy, parseFloatIfTruthy, optField, ha, hv]

/-- C4 witness: the fallback chain evaluated on the total-field-only purchase
entries. -/
theorem extract_window_fallback_chain_witness :
    findPurchase (some [purchaseTotalOnly]) = some purchaseTotalOnly ∧
    truthy purchaseTotalOnly.default = false ∧
    truthy purchaseTotalOnly.value = true ∧
    (MetaAdsAPIService.extractPurchaseConversions
        (some [purchaseTotalOnly]) (some [purchaseValueTotalOnly])).default.count =
      parseInt (purchaseTotalOnly.value.getD "") ∧
    (MetaAdsAPIService.extractPurchaseConversions
        (some [purchaseTotalOnly]) (some [purchaseValueTotalOnly])).«7d_click».count =
      JsNum.num 0 ∧
    (MetaAPIService.extractPurchaseConversions
        (some [purchaseTotalOnly]) (some [purchaseValueTotalOnly])).default.count =
      JsNum.num 0 := by
  have h := extract_window_fallback_chain (some [purchaseTotalOnly])
    (some [purchaseValueTotalOnly]) purchaseTotalOnly purchaseValueTotalOnly
    (by decide) (by decide)
  exact ⟨by decide, by decide, by decide, h.2.1 (by decide) (by decide),
    h.2.2.2.2.1 (by decide), h.2.2.2.2.2.2.2.2.1 (by decide)⟩

/-- An absent field defaults to `'0'` and parses (parseFloat) to 0. -/
lemma parseFloat_jsOr0_none : parseFloat (jsOr0 none) = JsNum.num 0 := by decide

/-- An absent field defaults to `'0'` and parses (parseInt) to 0. -/
lemma parseInt_jsOr0_none : parseInt (jsOr0 none) = JsNum.num 0 := by decide

/-- A present non-empty field is passed to the parser unchanged. -/
lemma jsOr0_some_of_ne (s : String) (h : s ≠ "") : jsOr0 (some s) = s := by
  simp [jsOr0, h]

/-- C3 counterexample: on a record whose spend field is the malformed numeric
string `"abc"`, both cited normalizers put NaN — not 0 — into the canonical
metrics' spend (JS `parseFloat('abc')` is NaN and there is no NaN guard), so
"a field that is absent or malformed maps to 0" fails for the malformed
case.  No exception is involved either way. -/
theorem malformed_spend_maps_to_nan_not_zero :
    (MetaAPIRoute.convertToMetrics malformedRecord).spend = JsNum.nan ∧
    (MetaAPIService.convertToMetrics malformedRecord).spend = JsNum.nan ∧
    JsNum.nan ≠ JsNum.num 0 := by decide

/-- C3 amended: parsing is defensive about *absence*: a numeric field that is
absent (JS `undefined`, defaulted to `'0'` by `field || '0'`) maps to 0 in
the canonical metrics, and parsing is total — no parse failure is ever
propagated to the caller.  A present but malformed numeric string, however,
maps to NaN (the value of JS `parseFloat`/`parseInt` on it), not to 0. -/
theorem defensive_parse_absent_zero_malformed_nan (data : RawRecord) :
    (data.spend = none → (MetaAPIRoute.convertToMetrics data).spend = JsNum.num 0 ∧
      (MetaAPIService.convertToMetrics data).spend = JsNum.num 0) ∧
    (data.cpc = none → (MetaAPIRoute.convertToMetrics data).cpc = JsNum.num 0 ∧
      (MetaAPIService.convertToMetrics data).cpc = JsNum.num 0) ∧
    (data.cpm = none → (MetaAPIRoute.convertToMetrics data).cpm = JsNum.num 0 ∧
      (MetaAPIService.convertToMetrics data).cpm = JsNum.num 0) ∧
    (data.cpp = none → (MetaAPIRoute.convertToMetrics data).cpp = JsNum.num 0 ∧
      (MetaAPIService.convertToMetrics data).cpp = JsNum.num 0) ∧
    (data.impressions = none →
      (MetaAPIRoute.convertToMetrics data).impressions = JsNum.num 0 ∧
      (MetaAPIService.convertToMetrics data).impressions = JsNum.num 0) ∧
    (data.reach = none → (MetaAPIRoute.convertToMetrics data).reach = JsNum.num 0 ∧
      (MetaAPIService.convertToMetrics data).reach = JsNum.num 0) ∧
    (data.frequency = none →
      (MetaAPIRoute.convertToMetrics data).frequency = JsNum.num 0 ∧
      (MetaAPIService.convertToMetrics data).frequency = JsNum.num 0) ∧
    (data.clicks = none → (MetaAPIRoute.convertToMetrics data).clicks = JsNum.num 0 ∧
      (MetaAPIService.convertToMetrics data).clicks = JsNum.num 0) ∧
    (data.link_clicks = none →
      (MetaAPIRoute.convertToMetrics data).link_clicks = JsNum.num 0 ∧
      (MetaAPIService.convertToMetrics data).link_clicks = JsNum.num 0) ∧
    (data.ctr = none → (MetaAPIRoute.convertToMetrics data).ctr = JsNum.num 0 ∧
      (MetaAPIService.convertToMetrics data).ctr = JsNum.num 0) ∧
    (∀ s, data.spend = some s → s ≠ "" → parseFloat s = JsNum.nan →
      (MetaAPIRoute.convertToMetrics data).spend = JsNum.nan ∧
      (MetaAPIService.convertToMetrics data).spend = JsNum.nan) := by
  refine ⟨fun h => ?_, fun h => ?_, fun h => ?_, fun h => ?_, fun h => ?_,
    fun h => ?_, fun h => ?_, fun h => ?_, fun h => ?_, fun h => ?_,
    fun s hs hne hnan => ?_⟩ <;>
    simp_all [MetaAPIRoute.convertToMetrics, MetaAPIService.convertToMetrics,
      parseFloat_jsOr0_none, parseInt_jsOr0_none, jsOr0_some_of_ne]

/-- C3 witness: the all-absent record normalizes every numeric field to 0,
and the malformed record's spend normalizes to NaN. -/
theorem defensive_parse_absent_zero_malformed_nan_witness :
    ((MetaAPIRoute.convertToMetrics emptyRecord).spend = JsNum.num 0 ∧
     (MetaAPIService.convertToMetrics emptyRecord).spend = JsNum.num 0) ∧
    ((MetaAPIRoute.convertToMetrics emptyRecord).clicks = JsNum.num 0 ∧
     (MetaAPIService.convertToMetrics emptyRecord).clicks = JsNum.num 0) ∧
    ((MetaAPIRoute.convertToMetrics malformedRecord).spend = JsNum.nan ∧
     (MetaAPIService.convertToMetrics malformedRecord).spend = JsNum.nan) := by
  refine ⟨(defensive_parse_absent_zero_malformed_nan emptyRecord).1 rfl,
    ?_, ?_⟩
  · exact (defensive_parse_absent_zero_malformed_nan emptyRecord).2.2.2.2.2.2.2.1 rfl
  · exact (defensive_parse_absent_zero_malformed_nan malformedRecord).2.2.2.2.2.2.2.2.2.2
      "abc" rfl (by decide) (by decide)

/-! ## Claims about the fetchers -/

/-- C5 counterexample: against an external API whose first page advertises a
continuation cursor (`paging.next` present, cursor `CURSOR_AFTER`) under
which a second page with more records is served, `fetchInsights` (both the
library and route-handler variants) returns just the first page: the cursor
is never followed, the result is not the concatenated record set, and no
"pagination exceeded" error exists anywhere in the code (a single request is
issued per call). -/
theorem fetchInsights_ignores_continuation_cursor :
    MetaAPIService.fetchInsights "TOKEN" pagedHttp sampleParams = Except.ok page1 ∧
    MetaAPIRoute.fetchInsights "TOKEN" pagedHttp sampleRouteParams = Except.ok page1 ∧
    page1.paging = some { cursors := ⟨"BEFORE1", "CURSOR_AFTER"⟩,
                          next := some "https://graph.facebook.com/v23.0/next" } ∧
    (pagedHttp [("after", "CURSOR_AFTER")]).json = page2 ∧
    page1.data ≠ page1.data ++ page2.data := by
  refine ⟨rfl, rfl, rfl, by decide, by decide⟩

/-- C5 amended: per call, the fetcher issues exactly one request and returns
that single response's parsed body as-is — the first page only.  Continuation
cursors are not followed, there is no page cap, and no "pagination exceeded"
error is ever surfaced. -/
theorem fetchInsights_returns_single_page (tok : String) (http : Http)
    (p : MetaAPIService.FetchParams) (p' : MetaAPIRoute.FetchParams)
    (h : (http (MetaAPIService.insightsQuery tok p)).ok = true)
    (h' : (http (MetaAPIRoute.insightsQuery tok p')).ok = true) :
    MetaAPIService.fetchInsights tok http p =
      Except.ok (http (MetaAPIService.insightsQuery tok p)).json ∧
    MetaAPIRoute.fetchInsights tok http p' =
      Except.ok (http (MetaAPIRoute.insightsQuery tok p')).json := by
  constructor <;>
    simp [MetaAPIService.fetchInsights, MetaAPIRoute.fetchInsights, h, h']

/-- C5 witness: the single-page behaviour evaluated against the two-page
oracle. -/
theorem fetchInsights_returns_single_page_witness :
    (pagedHttp (MetaAPIService.insightsQuery "TOKEN" sampleParams)).ok = true ∧
    (MetaAPIService.fetchInsights "TOKEN" pagedHttp sampleParams =
      Except.ok (pagedHttp (MetaAPIService.insightsQuery "TOKEN" sampleParams)).json ∧
     MetaAPIRoute.fetchInsights "TOKEN" pagedHttp sampleRouteParams =
      Except.ok (pagedHttp (MetaAPIRoute.insightsQuery "TOKEN" sampleRouteParams)).json) :=
  ⟨by decide, fetchInsights_returns_single_page "TOKEN" pagedHttp sampleParams
    sampleRouteParams (by decide) (by decide)⟩

/-- C6 counterexample: on an HTTP 400 rejection whose body is the diagnostic
`"(#100) Invalid parameter: time_range"`, the error the fetchers propagate is
`"<prefix>: 400 Bad Request"` — it contains the raw status and status text
but not the response body, which is only written to `console.error`, so a
caller cannot read the rejection diagnostics from the propagated error. -/
theorem fetch_error_omits_response_body :
    MetaAPIRoute.fetchInsights "TOKEN" rejectionHttp sampleRouteParams =
      Except.error "Meta API Error: 400 Bad Request" ∧
    MetaComparisonAPIService.fetchInsights "TOKEN" rejectionHttp sampleRange =
      Except.error "Meta Comparison API Error: 400 Bad Request" ∧
    (rejectionHttp (MetaAPIRoute.insightsQuery "TOKEN" sampleRouteParams)).body =
      rejectionBody ∧
    ¬ rejectionBody.data <:+: ("Meta API Error: 400 Bad Request").data ∧
    ¬ rejectionBody.data <:+: ("Meta Comparison API Error: 400 Bad Request").data := by
  refine ⟨rfl, rfl, rfl, by decide, by decide⟩

/-- C6 amended: on every HTTP error status the fetchers propagate an error
built from the raw HTTP status and the HTTP status text (`Meta API Error:
<status> <statusText>`); the raw response body is read but only logged, never
included in the propagated error. -/
theorem fetch_error_includes_status_and_statusText (tok : String) (http : Http)
    (p' : MetaAPIRoute.FetchParams) (dr : DateRange)
    (h : (http (MetaAPIRoute.insightsQuery tok p')).ok = false)
    (h' : (http (MetaComparisonAPIService.insightsQuery tok dr)).ok = false) :
    MetaAPIRoute.fetchInsights tok http p' =
      Except.error ("Meta API Error: " ++
        toString (http (MetaAPIRoute.insightsQuery tok p')).status ++ " " ++
        (http (MetaAPIRoute.insightsQuery tok p')).statusText) ∧
    MetaComparisonAPIService.fetchInsights tok http dr =
      Except.error ("Meta Comparison API Error: " ++
        toString (http (MetaComparisonAPIService.insightsQuery tok dr)).status ++ " " ++
        (http (MetaComparisonAPIService.insightsQuery tok dr)).statusText) := by
  constructor <;>
    simp [MetaAPIRoute.fetchInsights, MetaComparisonAPIService.fetchInsights, h, h']

/-- C6 witness: the propagated error evaluated against the rejecting
oracle. -/
theorem fetch_error_includes_status_and_statusText_witness :
    (rejectionHttp (MetaAPIRoute.insightsQuery "TOKEN" sampleRouteParams)).ok = false ∧
    (MetaAPIRoute.fetchInsights "TOKEN" rejectionHttp sampleRouteParams =
      Except.error ("Meta API Error: " ++
        toString (rejectionHttp (MetaAPIRoute.insightsQuery "TOKEN" sampleRouteParams)).status
        ++ " " ++
        (rejectionHttp (MetaAPIRoute.insightsQuery "TOKEN" sampleRouteParams)).statusText) ∧
     MetaComparisonAPIService.fetchInsights "TOKEN" rejectionHttp sampleRange =
      Except.error ("Meta Comparison API Error: " ++
        toString (rejectionHttp
          (MetaComparisonAPIService.insightsQuery "TOKEN" sampleRange)).status ++ " " ++
        (rejectionHttp
          (MetaComparisonAPIService.insightsQuery "TOKEN" sampleRange)).statusText)) :=
  ⟨rfl, fetch_error_includes_status_and_statusText "TOKEN" rejectionHttp
    sampleRouteParams sampleRange rfl rfl⟩
